import Mathlib

/-!
Shallow embedding of the ks-dhcpmon observation pipeline and OS-detection
engine, translated from the Rust sources:

* `src/fingerprint.rs` — static fingerprint DB, MAC overrides, lookups;
* `src/dhcp.rs`        — DHCP packet decoder and the enriched request;
* `src/smb.rs`         — SMB2 probe, response parsing, build table;
* `src/hybrid_detection.rs` — hybrid detector, SMB result cache.

Modelling conventions: byte slices are `List Nat` (each element a byte
value), machine integers are `Nat` (the decoder assembles multi-byte
fields exactly as `from_be_bytes` / `from_le_bytes` do), the Rust `f32`
confidence literals are carried as exact rationals (no arithmetic is ever
performed on them), network and subprocess effects are passed in as
explicit outcome values, the `tokio` lock-protected SMB cache is passed
as explicit state (`String → Option SmbCacheEntry`), and the impure
timestamp is a `Nat` parameter (epoch seconds).  Rust strings are Lean
`String`s except the rendered MAC address, which is kept as its character
list so that the colon-splitting of `str::split` can be modelled directly.
-/

namespace DhcpMon

/-! ## fingerprint.rs -/

/-- OsInfo from fingerprint.rs (the three `&'static str` fields). -/
structure OsInfo where
  os_name : String
  device_class : String
  vendor : String
deriving DecidableEq, Repr

/-- MacOsInfo from fingerprint.rs: an entry of the optional
`mac_os_mapping.toml` side file. -/
structure MacOsInfo where
  os_name : String
  device_class : String
  vendor : String
deriving DecidableEq, Repr

/-- FINGERPRINT_DB from fingerprint.rs, in insertion order.  All 17 keys
are pairwise distinct, so association-list lookup coincides with the
Rust HashMap lookup. -/
def FINGERPRINT_DB : List (String × OsInfo) :=
  [("1,3,6,15,31,33,43,44,46,47,121,249,252,12",
      ⟨"Windows 11", "Desktop/Laptop", "Microsoft"⟩),
   ("1,3,6,15,31,33,43,44,46,47,121,249,252",
      ⟨"Windows 10/8/8.1", "Desktop/Laptop", "Microsoft"⟩),
   ("1,15,3,6,44,46,47,31,33,121,249,43,252",
      ⟨"Windows 7", "Desktop/Laptop", "Microsoft"⟩),
   ("1,3,6,15,119,252", ⟨"macOS (Recent)", "Desktop/Laptop", "Apple"⟩),
   ("1,3,6,15,119,95,252,44,46", ⟨"macOS (Older)", "Desktop/Laptop", "Apple"⟩),
   ("1,3,6,15,119,252,95,44,46", ⟨"iOS/iPadOS", "Mobile", "Apple"⟩),
   ("1,121,3,6,15,119,252,95,44,46", ⟨"iOS", "Mobile", "Apple"⟩),
   ("1,3,6,15,26,28,51,58,59", ⟨"Android", "Mobile", "Google"⟩),
   ("1,3,6,12,15,26,28,51,58,59,43", ⟨"Android", "Mobile", "Google"⟩),
   ("1,28,2,3,15,6,119,12,44,47,26,121,42",
      ⟨"Linux (Ubuntu/Debian)", "Desktop/Server", "Linux"⟩),
   ("1,3,6,12,15,28,42,51,54,58,59", ⟨"Linux", "Desktop/Server", "Linux"⟩),
   ("1,3,6,12,15,28,51,58,59,119", ⟨"Chrome OS", "Chromebook", "Google"⟩),
   ("1,3,6,15,12,28", ⟨"PlayStation", "Gaming Console", "Sony"⟩),
   ("1,3,6,15,44,46,47,12", ⟨"Xbox", "Gaming Console", "Microsoft"⟩),
   ("1,3,6,15,28,51,58,59", ⟨"Nintendo Switch", "Gaming Console", "Nintendo"⟩),
   ("1,3,6,12,15,28,42", ⟨"Roku", "Streaming Device", "Roku"⟩),
   ("1,3,6,15,26,28,51,58,59,43,12", ⟨"Fire TV", "Streaming Device", "Amazon"⟩)]

/-- lookup_fingerprint from fingerprint.rs: direct lookup, exact match only. -/
def lookup_fingerprint (fingerprint : String) : Option OsInfo :=
  (FINGERPRINT_DB.find? (fun e => e.1 == fingerprint)).map (fun e => e.2)

/-- lookup_os from fingerprint.rs.  The MAC override table MAC_MAPPINGS is
loaded from a side file at startup, so it is a parameter of the model,
keyed (like the source HashMap) by the rendered MAC string. -/
def lookup_os (macMappings : List Char → Option MacOsInfo)
    (mac_address : List Char) (fingerprint : String) : Option OsInfo :=
  match macMappings mac_address with
  | some m => some ⟨m.os_name, m.device_class, m.vendor⟩
  | none => lookup_fingerprint fingerprint

/-! ## dhcp.rs -/

/-- DhcpOption from dhcp.rs. -/
structure DhcpOption where
  code : Nat
  data : List Nat
deriving DecidableEq, Repr

/-- DhcpPacket from dhcp.rs.  IPv4 addresses are kept as their four raw
bytes. -/
structure DhcpPacket where
  op : Nat
  htype : Nat
  hlen : Nat
  hops : Nat
  xid : Nat
  secs : Nat
  flags : Nat
  ciaddr : List Nat
  yiaddr : List Nat
  siaddr : List Nat
  giaddr : List Nat
  chaddr : List Nat
  options : List DhcpOption
deriving DecidableEq, Repr

/-- The option TLV loop of DhcpPacket::parse_options, phrased on the
suffix of the options area that remains at loop counter `i` (the Rust
code indexes the full slice, which is equivalent).  The accumulator is
kept reversed, mirroring Vec::push. -/
def parse_options_loop : List Nat → List DhcpOption → List DhcpOption
  | [], acc => acc.reverse
  | code :: rest, acc =>
    if code = 255 then acc.reverse
    else if code = 0 then parse_options_loop rest acc
    else
      match rest with
      | [] => acc.reverse
      | len :: rest2 =>
        if len ≤ rest2.length then
          parse_options_loop (rest2.drop len) ({ code := code, data := rest2.take len } :: acc)
        else acc.reverse
termination_by data _ => data.length
decreasing_by
  all_goals simp only [List.length_cons, List.length_drop]
  all_goals omega

/-- DhcpPacket::parse_options from dhcp.rs: magic-cookie check, then the
TLV loop starting right after the cookie. -/
def parse_options (data : List Nat) : Except String (List DhcpOption) :=
  if data.length < 4 ∨ data.take 4 ≠ [99, 130, 83, 99] then
    Except.error "Invalid DHCP magic cookie"
  else Except.ok (parse_options_loop (data.drop 4) [])

/-- DhcpPacket::parse from dhcp.rs. -/
def DhcpPacket.parse (data : List Nat) : Except String DhcpPacket :=
  if data.length < 236 then Except.error "DHCP packet too short"
  else
    match parse_options (data.drop 236) with
    | Except.error e => Except.error e
    | Except.ok options =>
      Except.ok
        { op := data.getD 0 0
          htype := data.getD 1 0
          hlen := data.getD 2 0
          hops := data.getD 3 0
          xid := data.getD 4 0 * 16777216 + data.getD 5 0 * 65536 +
            data.getD 6 0 * 256 + data.getD 7 0
          secs := data.getD 8 0 * 256 + data.getD 9 0
          flags := data.getD 10 0 * 256 + data.getD 11 0
          ciaddr := (data.drop 12).take 4
          yiaddr := (data.drop 16).take 4
          siaddr := (data.drop 20).take 4
          giaddr := (data.drop 24).take 4
          chaddr := (data.drop 28).take 16
          options := options }

/-- One lowercase hexadecimal digit, as produced by Rust's lower-hex
formatting. -/
def hexChar (n : Nat) : Char :=
  if n < 10 then Char.ofNat (48 + n) else Char.ofNat (87 + n)

/-- The two characters that format a byte, as Rust's 02x format does. -/
def hexByte (b : Nat) : List Char :=
  [hexChar (b / 16 % 16), hexChar (b % 16)]

/-- Rust's slice join with a separator, specialised to character lists:
used to model joining the per-byte hex pairs with a colon. -/
def joinColon : List (List Char) → List Char
  | [] => []
  | [p] => p
  | p :: ps => p ++ ':' :: joinColon ps

/-- Rust's str::split on a single separator character (an empty input
yields one empty component, as in Rust). -/
def splitChar (sep : Char) : List Char → List (List Char)
  | [] => [[]]
  | c :: rest =>
    if c = sep then [] :: splitChar sep rest
    else
      match splitChar sep rest with
      | [] => [[c]]
      | h :: t => (c :: h) :: t

/-- DhcpPacket::get_mac_address from dhcp.rs, as a character list. -/
def DhcpPacket.get_mac_address (p : DhcpPacket) : List Char :=
  if p.hlen > 16 then []
  else joinColon ((p.chaddr.take p.hlen).map hexByte)

/-- DhcpPacket::get_option from dhcp.rs. -/
def DhcpPacket.get_option (p : DhcpPacket) (code : Nat) : Option DhcpOption :=
  p.options.find? (fun opt => opt.code == code)

/-- DhcpPacket::get_message_type from dhcp.rs (first byte of Option 53). -/
def DhcpPacket.get_message_type (p : DhcpPacket) : Option Nat :=
  (p.get_option 53).bind (fun opt => opt.data.head?)

/-- DhcpPacket::get_fingerprint from dhcp.rs: CSV of the Option 55 bytes. -/
def DhcpPacket.get_fingerprint (p : DhcpPacket) : String :=
  match p.get_option 55 with
  | some opt => String.intercalate "," (opt.data.map toString)
  | none => ""

/-- DhcpPacket::get_vendor_class from dhcp.rs, kept as the raw Option 60
bytes (the lossy UTF-8 decoding is not modelled; no claim consumes it). -/
def DhcpPacket.get_vendor_class (p : DhcpPacket) : Option (List Nat) :=
  (p.get_option 60).map (fun opt => opt.data)

/-- The message-type naming match of DhcpRequest::from_packet. -/
def message_type_name (mt : Option Nat) : String :=
  match mt with
  | some 1 => "DISCOVER"
  | some 3 => "REQUEST"
  | some 4 => "DECLINE"
  | some 5 => "ACK"
  | some 6 => "NAK"
  | some 7 => "RELEASE"
  | some 8 => "INFORM"
  | _ => "UNKNOWN"

/-- The 08x rendering of the 32-bit xid: eight nibbles, most significant
first, each as a lowercase hex digit. -/
def xidHex (x : Nat) : List Char :=
  (List.range 8).map (fun k => hexChar (x / 16 ^ (7 - k) % 16))

/-- DhcpRequest from dhcp.rs, restricted to the fields the claims touch
(the impure timestamp is a parameter; the detector overlay fields start
out as none exactly as in the source). -/
structure DhcpRequest where
  timestamp : String
  source_ip : String
  source_port : Nat
  mac_address : List Char
  message_type : String
  xid : List Char
  fingerprint : String
  vendor_class : Option (List Nat)
  os_name : Option String
  device_class : Option String
  raw_options : List DhcpOption
deriving DecidableEq, Repr

/-- DhcpRequest::from_packet from dhcp.rs. -/
def DhcpRequest.from_packet (macMappings : List Char → Option MacOsInfo)
    (packet : DhcpPacket) (timestamp source_ip : String) (source_port : Nat) :
    DhcpRequest :=
  let fingerprint := packet.get_fingerprint
  let mac_address := packet.get_mac_address
  let osdev : Option String × Option String :=
    if fingerprint ≠ "" then
      match lookup_os macMappings mac_address fingerprint with
      | some os_info => (some os_info.os_name, some os_info.device_class)
      | none => (none, none)
    else (none, none)
  { timestamp := timestamp
    source_ip := source_ip
    source_port := source_port
    mac_address := mac_address
    message_type := message_type_name packet.get_message_type
    xid := xidHex packet.xid
    fingerprint := fingerprint
    vendor_class := packet.get_vendor_class
    os_name := osdev.1
    device_class := osdev.2
    raw_options := packet.options }

/-! ## smb.rs -/

/-- SmbProbeResult from smb.rs. -/
structure SmbProbeResult where
  os_version : String
  build_number : Option Nat
  smb_dialect : String
  success : Bool
deriving DecidableEq, Repr

/-- build_to_windows_version from smb.rs.  The Rust match is a
first-arm-wins sequence of range and literal patterns; it is rendered
here as the corresponding if-chain in source order. -/
def build_to_windows_version (build : Nat) : String :=
  if 22000 ≤ build ∧ build ≤ 22999 then "Windows 11 21H2"
  else if 22621 ≤ build ∧ build ≤ 22630 then "Windows 11 22H2"
  else if 22631 ≤ build ∧ build ≤ 22999 then "Windows 11 23H2"
  else if 26000 ≤ build ∧ build ≤ 29999 then "Windows 11 (Insider/Future)"
  else if 19041 ≤ build ∧ build ≤ 19045 then "Windows 10 2004/20H2/21H1"
  else if build = 19042 then "Windows 10 20H2"
  else if build = 19043 then "Windows 10 21H1"
  else if build = 19044 then "Windows 10 21H2"
  else if build = 19045 then "Windows 10 22H2"
  else if 18362 ≤ build ∧ build ≤ 18363 then "Windows 10 1903/1909"
  else if build = 17763 then "Windows 10 1809"
  else if build = 17134 then "Windows 10 1803"
  else if build = 16299 then "Windows 10 1709"
  else if build = 15063 then "Windows 10 1703"
  else if build = 14393 then "Windows 10 1607"
  else if build = 10586 then "Windows 10 1511"
  else if build = 10240 then "Windows 10 1507"
  else if build = 9600 then "Windows 8.1"
  else if build = 9200 then "Windows 8"
  else if 7600 ≤ build ∧ build ≤ 7601 then "Windows 7"
  else "Windows (unknown version)"

/-- The DialectRevision match of parse_smb2_response (two-byte wire code
to dialect label). -/
def dialect_label (dialect_code : Nat) : String :=
  if dialect_code = 0x0202 then "SMB 2.0.2"
  else if dialect_code = 0x0210 then "SMB 2.1"
  else if dialect_code = 0x0300 then "SMB 3.0"
  else if dialect_code = 0x0302 then "SMB 3.0.2"
  else if dialect_code = 0x0311 then "SMB 3.1.1"
  else "SMB (unknown)"

/-- The dialect-to-OS heuristic match of parse_smb2_response. -/
def os_from_dialect (smb_dialect : String) : String × Option Nat :=
  if smb_dialect = "SMB 3.1.1" then ("Windows 10/11 (SMB 3.1.1)", some 19041)
  else if smb_dialect = "SMB 3.0.2" ∨ smb_dialect = "SMB 3.0" then
    ("Windows 8.1/10 (SMB 3.0)", some 9600)
  else if smb_dialect = "SMB 2.1" then ("Windows 7/Server 2008 R2", some 7601)
  else if smb_dialect = "SMB 2.0.2" then ("Windows Vista/Server 2008", some 6002)
  else ("Windows (unknown SMB)", none)

/-- parse_smb2_response from smb.rs: length and signature validation,
then the little-endian DialectRevision read at offset 68 (guarded by a
length-70 check, with the literal fallback label below), then the
dialect-to-OS heuristic. -/
def parse_smb2_response (data : List Nat) : Except String SmbProbeResult :=
  if data.length < 68 then Except.error "SMB response too short"
  else if data.length < 8 ∨ (data.drop 4).take 4 ≠ [0xFE, 83, 77, 66] then
    Except.error "Invalid SMB2 signature"
  else
    let smb_dialect :=
      if 70 ≤ data.length then dialect_label (data.getD 68 0 + 256 * data.getD 69 0)
      else "SMB 2.x/3.x"
    let osb := os_from_dialect smb_dialect
    Except.ok ⟨osb.1, osb.2, smb_dialect, true⟩

/-- Outcome of the TCP dial to port 445 (the timeout-wrapped connect in
probe_smb). -/
inductive ConnectOutcome
  | refused
  | timedOut
  | connected
deriving DecidableEq, Repr

/-- Outcome of the timeout-wrapped write of the negotiate frame. -/
inductive SendOutcome
  | sent
  | sendFailed (e : String)
  | sendTimedOut
deriving DecidableEq, Repr

/-- Outcome of the timeout-wrapped read of the response: the received
prefix of the 4096-byte buffer, a read error, or a timeout. -/
inductive ReadOutcome
  | got (bytes : List Nat)
  | readFailed (e : String)
  | readTimedOut
deriving DecidableEq, Repr

/-- send_smb2_negotiate from smb.rs, over the explicit I/O outcomes. -/
def send_smb2_negotiate (send : SendOutcome) (readr : ReadOutcome) :
    Except String SmbProbeResult :=
  match send with
  | SendOutcome.sendFailed e => Except.error ("Failed to send SMB negotiate: " ++ e)
  | SendOutcome.sendTimedOut => Except.error "SMB negotiate send timeout"
  | SendOutcome.sent =>
    match readr with
    | ReadOutcome.readFailed e => Except.error ("Failed to read SMB response: " ++ e)
    | ReadOutcome.readTimedOut => Except.error "SMB response read timeout"
    | ReadOutcome.got bytes =>
      if bytes.length = 0 then Except.error "Empty SMB response"
      else parse_smb2_response bytes

/-- probe_smb from smb.rs, over the explicit network outcomes. -/
def probe_smb (conn : ConnectOutcome) (send : SendOutcome) (readr : ReadOutcome) :
    Except String SmbProbeResult :=
  match conn with
  | ConnectOutcome.refused =>
    Except.ok ⟨"Unknown (SMB port closed)", none, "N/A", false⟩
  | ConnectOutcome.timedOut =>
    Except.ok ⟨"Unknown (connection timeout)", none, "N/A", false⟩
  | ConnectOutcome.connected => send_smb2_negotiate send readr

/-! ## hybrid_detection.rs -/

/-- HybridConfig from hybrid_detection.rs. -/
structure HybridConfig where
  enable_smb_probing : Bool
  smb_timeout_secs : Nat
  smb_probe_confidence_threshold : ℚ
  smb_cache_ttl_secs : Nat
deriving DecidableEq, Repr

/-- The Default instance of HybridConfig. -/
def HybridConfig.default : HybridConfig :=
  { enable_smb_probing := true
    smb_timeout_secs := 3
    smb_probe_confidence_threshold := 0.8
    smb_cache_ttl_secs := 3600 }

/-- DetectionResult from hybrid_detection.rs (confidence as an exact
rational standing for the f32 literal). -/
structure DetectionResult where
  os_name : String
  device_class : String
  vendor : String
  confidence : ℚ
  detection_method : String
  smb_dialect : Option String
  smb_build : Option Nat
deriving DecidableEq, Repr

/-- SmbCacheEntry from hybrid_detection.rs. -/
structure SmbCacheEntry where
  result : SmbProbeResult
  timestamp : Nat
deriving DecidableEq, Repr

/-- The lock-protected HashMap behind the SMB cache, as explicit state. -/
abbrev SmbCache := String → Option SmbCacheEntry

/-- detect_via_dhcp from hybrid_detection.rs. -/
def detect_via_dhcp (macMappings : List Char → Option MacOsInfo)
    (mac_address : List Char) (fingerprint : String) : DetectionResult :=
  match lookup_os macMappings mac_address fingerprint with
  | some info =>
    ⟨info.os_name, info.device_class, info.vendor, 0.95,
      "MAC/Fingerprint lookup", none, none⟩
  | none => ⟨"Unknown", "Unknown", "Unknown", 0, "None", none, none⟩

/-- combine_results from hybrid_detection.rs. -/
def combine_results (dhcp_result : DetectionResult) (smb_result : SmbProbeResult) :
    DetectionResult :=
  ⟨smb_result.os_version, dhcp_result.device_class, "Microsoft", 0.95,
    "SMB probe (" ++ smb_result.smb_dialect ++ ")",
    some smb_result.smb_dialect, smb_result.build_number⟩

/-- The outcome of probe_smb_cached, together with the cache state after
the call and whether probe_smb was invoked (a TCP dial was attempted). -/
structure ProbeStep where
  result : Option SmbProbeResult
  cache : SmbCache
  dialed : Bool

/-- The cache-miss path of probe_smb_cached: run probe_smb (its value is
the probeOutcome parameter) and, on any Ok result, insert it under the
current epoch-second timestamp. -/
def probe_fresh (cache : SmbCache) (now : Nat)
    (probeOutcome : Except String SmbProbeResult) (ip : String) : ProbeStep :=
  match probeOutcome with
  | Except.ok r =>
    ⟨some r, fun k => if k = ip then some ⟨r, now⟩ else cache k, true⟩
  | Except.error _ => ⟨none, cache, true⟩

/-- probe_smb_cached from hybrid_detection.rs.  The u64 age subtraction
is modelled by Nat subtraction, which agrees with the source whenever
the entry was stored at or before `now`. -/
def probe_smb_cached (cfg : HybridConfig) (cache : SmbCache) (now : Nat)
    (probeOutcome : Except String SmbProbeResult) (ip : String) : ProbeStep :=
  match cache ip with
  | some entry =>
    if now - entry.timestamp < cfg.smb_cache_ttl_secs then
      ⟨some entry.result, cache, false⟩
    else probe_fresh cache now probeOutcome ip
  | none => probe_fresh cache now probeOutcome ip

/-- Outcome of the ping_host reachability pre-check: Ok(true), Ok(false)
or Err (ping command failed to execute). -/
inductive PingOutcome
  | reachable
  | unreachable
  | pingError
deriving DecidableEq, Repr

/-- The vendor-class gate of detect: vendor_class.map_or(false,
contains "MSFT"), with substring containment spelled out. -/
def contains_sub (hay needle : List Char) : Bool :=
  (List.range (hay.length + 1)).any (fun i => needle.isPrefixOf (hay.drop i))

/-- The MSFT vendor-class test used in detect's gating condition. -/
def vendorHasMSFT (vendor_class : Option String) : Bool :=
  match vendor_class with
  | some vc => contains_sub vc.toList "MSFT".toList
  | none => false

/-- The outcome of detect, together with the cache state after the call,
whether probe_smb_cached was reached, and whether a TCP dial happened. -/
structure DetectStep where
  result : DetectionResult
  probeStage : Bool
  dialed : Bool
  cache : SmbCache

/-- HybridDetector::detect from hybrid_detection.rs, over the explicit
ping and probe outcomes. -/
def detect (cfg : HybridConfig) (macMappings : List Char → Option MacOsInfo)
    (cache : SmbCache) (now : Nat) (ping : PingOutcome)
    (probeOutcome : Except String SmbProbeResult)
    (mac_address : List Char) (ip_address fingerprint : String)
    (vendor_class : Option String) : DetectStep :=
  let dhcp_result := detect_via_dhcp macMappings mac_address fingerprint
  let should_probe_smb := cfg.enable_smb_probing && (ip_address != "0.0.0.0") &&
    vendorHasMSFT vendor_class
  if should_probe_smb then
    match ping with
    | PingOutcome.unreachable => ⟨dhcp_result, false, false, cache⟩
    | _ =>
      let step := probe_smb_cached cfg cache now probeOutcome ip_address
      match step.result with
      | some smb_result =>
        if smb_result.success then
          ⟨combine_results dhcp_result smb_result, true, step.dialed, step.cache⟩
        else ⟨dhcp_result, true, step.dialed, step.cache⟩
      | none => ⟨dhcp_result, true, step.dialed, step.cache⟩
  else ⟨dhcp_result, false, false, cache⟩

/-! ## Auxiliary definitions used by the statements -/

/-- Total number of input bytes covered by a list of decoded options
(one code byte and one length byte per option, plus its payload). -/
def optionsBytes (opts : List DhcpOption) : Nat :=
  (opts.map (fun o => 2 + o.data.length)).sum

/-- A character is a lowercase hexadecimal digit (0-9 or a-f). -/
def isLowerHexDigit (c : Char) : Bool :=
  (48 ≤ c.toNat && c.toNat ≤ 57) || (97 ≤ c.toNat && c.toNat ≤ 102)

/-- A 240-byte raw DHCP frame whose hlen byte (offset 2) is zero and
whose options area is just the magic cookie. -/
def hlenZeroFrame : List Nat :=
  [1, 1, 0, 0] ++ List.replicate 232 0 ++ [99, 130, 83, 99]

/-- A 70-byte SMB2 negotiate response advertising DialectRevision 0x0311
(bytes 68 and 69 are 0x11, 0x03 little-endian). -/
def smbBuf72 : List Nat :=
  List.replicate 4 0 ++ [0xFE, 83, 77, 66] ++ List.replicate 60 0 ++ [0x11, 0x03]

/-- A 240-byte raw DHCP frame with hlen 6, body bytes 7 and the magic
cookie as its whole options area. -/
def hlenSixFrame : List Nat :=
  [1, 1, 6, 0] ++ List.replicate 232 7 ++ [99, 130, 83, 99]

/-- The packet that parsing hlenSixFrame produces. -/
def hlenSixPacket : DhcpPacket :=
  { op := 1
    htype := 1
    hlen := 6
    hops := 0
    xid := 117901063
    secs := 1799
    flags := 1799
    ciaddr := [7, 7, 7, 7]
    yiaddr := [7, 7, 7, 7]
    siaddr := [7, 7, 7, 7]
    giaddr := [7, 7, 7, 7]
    chaddr := List.replicate 16 7
    options := [] }

/-! ## Helper lemmas -/

/-- The TLV loop on an empty suffix returns the accumulated options. -/
lemma parse_options_loop_nil (acc : List DhcpOption) :
    parse_options_loop [] acc = acc.reverse := by
  simp [parse_options_loop]

/-- Code 255 (end) terminates the TLV loop immediately. -/
lemma parse_options_loop_end (rest : List Nat) (acc : List DhcpOption) :
    parse_options_loop (255 :: rest) acc = acc.reverse := by
  rw [parse_options_loop.eq_def]
  simp

/-- Code 0 (pad) is skipped by the TLV loop. -/
lemma parse_options_loop_pad (rest : List Nat) (acc : List DhcpOption) :
    parse_options_loop (0 :: rest) acc = parse_options_loop rest acc := by
  rw [parse_options_loop.eq_def]
  simp

/-- A code byte with no following length byte ends the TLV loop silently. -/
lemma parse_options_loop_nolen (code : Nat) (acc : List DhcpOption)
    (h255 : code ≠ 255) (h0 : code ≠ 0) :
    parse_options_loop [code] acc = acc.reverse := by
  rw [parse_options_loop.eq_def]
  simp [h255, h0]

/-- A declared length that runs past the buffer ends the TLV loop
silently, retaining the options accumulated so far. -/
lemma parse_options_loop_trunc (code len : Nat) (rest : List Nat)
    (acc : List DhcpOption) (h255 : code ≠ 255) (h0 : code ≠ 0)
    (h : rest.length < len) :
    parse_options_loop (code :: len :: rest) acc = acc.reverse := by
  rw [parse_options_loop.eq_def]
  simp [h255, h0, Nat.not_le.mpr h]

/-- An in-bounds TLV is consumed and pushed by the loop. -/
lemma parse_options_loop_consume (code len : Nat) (rest : List Nat)
    (acc : List DhcpOption) (h255 : code ≠ 255) (h0 : code ≠ 0)
    (h : len ≤ rest.length) :
    parse_options_loop (code :: len :: rest) acc =
      parse_options_loop (rest.drop len) ({ code := code, data := rest.take len } :: acc) := by
  rw [parse_options_loop.eq_def]
  simp [h255, h0, h]

/-- Reversal does not change the byte count of a list of options. -/
lemma optionsBytes_reverse (opts : List DhcpOption) :
    optionsBytes opts.reverse = optionsBytes opts := by
  simp [optionsBytes, List.map_reverse, List.sum_reverse]

/-- The TLV loop consumes at most the bytes of its input suffix. -/
lemma parse_options_loop_bytes (n : Nat) :
    ∀ data : List Nat, ∀ acc : List DhcpOption, data.length ≤ n →
      optionsBytes (parse_options_loop data acc) ≤ data.length + optionsBytes acc := by
  induction n with
  | zero =>
    intro data acc h
    have hd : data = [] := List.length_eq_zero.mp (Nat.le_zero.mp h)
    subst hd
    simp [parse_options_loop_nil, optionsBytes_reverse]
  | succ n ih =>
    intro data acc h
    match data with
    | [] => simp [parse_options_loop_nil, optionsBytes_reverse]
    | code :: rest =>
      by_cases h255 : code = 255
      · subst h255
        rw [parse_options_loop_end]
        simp [optionsBytes_reverse]
      · by_cases h0 : code = 0
        · subst h0
          rw [parse_options_loop_pad]
          have := ih rest acc (by simp at h; omega)
          simp only [List.length_cons]
          omega
        · match rest with
          | [] =>
            rw [parse_options_loop_nolen code acc h255 h0]
            simp [optionsBytes_reverse]
          | len :: rest2 =>
            by_cases hlen : len ≤ rest2.length
            · rw [parse_options_loop_consume code len rest2 acc h255 h0 hlen]
              have hrec := ih (rest2.drop len)
                ({ code := code, data := rest2.take len } :: acc)
                (by simp at h ⊢; omega)
              simp only [optionsBytes, List.map_cons, List.sum_cons,
                List.length_take, List.length_drop, List.length_cons] at hrec ⊢
              have : min len rest2.length = len := Nat.min_eq_left hlen
              omega
            · rw [parse_options_loop_trunc code len rest2 acc h255 h0 (by omega)]
              simp [optionsBytes_reverse]

/-- A successful 4-byte cookie comparison needs at least 4 bytes. -/
lemma take4_eq_len {l : List Nat} {a b c d : Nat}
    (h : l.take 4 = [a, b, c, d]) : 4 ≤ l.length := by
  have := congrArg List.length h
  simp [List.length_take] at this
  omega

/-- splitChar never produces an empty list of components. -/
lemma splitChar_ne_nil (sep : Char) (l : List Char) : splitChar sep l ≠ [] := by
  induction l with
  | nil => simp [splitChar]
  | cons c rest ih =>
    by_cases hc : c = sep
    · simp [splitChar, hc]
    · simp only [splitChar, hc, if_false]
      cases h : splitChar sep rest <;> simp

/-- A separator-free list splits into itself as a single component. -/
lemma splitChar_no_sep (sep : Char) (p : List Char) (h : sep ∉ p) :
    splitChar sep p = [p] := by
  induction p with
  | nil => rfl
  | cons c rest ih =>
    have hc : c ≠ sep := fun e => h (e ▸ List.mem_cons_self c rest)
    have hr : sep ∉ rest := fun hm => h (List.mem_cons_of_mem _ hm)
    simp [splitChar, hc, ih hr]

/-- Splitting a list that starts with a separator-free chunk followed by
the separator prepends that chunk as a component. -/
lemma splitChar_append_sep (sep : Char) (p rest : List Char) (h : sep ∉ p) :
    splitChar sep (p ++ sep :: rest) = p :: splitChar sep rest := by
  induction p with
  | nil => simp [splitChar]
  | cons c p' ih =>
    have hc : c ≠ sep := fun e => h (e ▸ List.mem_cons_self c p')
    have hp' : sep ∉ p' := fun hm => h (List.mem_cons_of_mem _ hm)
    simp [splitChar, hc, ih hp']

/-- The number of colon-separated components of a colon-joined list of
colon-free parts is the number of parts. -/
lemma splitChar_joinColon_length (parts : List (List Char)) (hne : parts ≠ [])
    (hsep : ∀ p ∈ parts, ':' ∉ p) :
    (splitChar ':' (joinColon parts)).length = parts.length := by
  induction parts with
  | nil => exact absurd rfl hne
  | cons p ps ih =>
    cases ps with
    | nil =>
      simp [joinColon, splitChar_no_sep ':' p (hsep p (List.mem_cons_self p []))]
    | cons q qs =>
      have hjoin : joinColon (p :: q :: qs) = p ++ ':' :: joinColon (q :: qs) := by
        simp [joinColon]
      rw [hjoin, splitChar_append_sep ':' p _ (hsep p (List.mem_cons_self p _))]
      have := ih (by simp) (fun r hr => hsep r (List.mem_cons_of_mem _ hr))
      simp [this]

/-- hexChar of a nibble is never a colon. -/
lemma hexChar_ne_colon : ∀ n, n < 16 → hexChar n ≠ ':' := by decide

/-- hexChar of a nibble is a lowercase hexadecimal digit. -/
lemma hexChar_isLowerHex : ∀ n, n < 16 → isLowerHexDigit (hexChar n) = true := by decide

/-- Inverting a successful parse: the length guard passed and the header
fields come from the fixed offsets. -/
lemma parse_ok_elim (data : List Nat) (p : DhcpPacket)
    (h : DhcpPacket.parse data = Except.ok p) :
    236 ≤ data.length ∧ p.hlen = data.getD 2 0 ∧ p.chaddr = (data.drop 28).take 16 := by
  unfold DhcpPacket.parse at h
  split at h
  · exact absurd h (by simp)
  · rename_i h236
    split at h
    · exact absurd h (by simp)
    · simp only [Except.ok.injEq] at h
      subst h
      exact ⟨by omega, rfl, rfl⟩

set_option maxRecDepth 40000 in
/-- Concrete evaluation of the parser on the hlen-0 frame (the TLV loop
is unfolded through its equations since it is defined by well-founded
recursion). -/
lemma parse_hlenZeroFrame :
    DhcpPacket.parse hlenZeroFrame = Except.ok
      { op := 1
        htype := 1
        hlen := 0
        hops := 0
        xid := 0
        secs := 0
        flags := 0
        ciaddr := [0, 0, 0, 0]
        yiaddr := [0, 0, 0, 0]
        siaddr := [0, 0, 0, 0]
        giaddr := [0, 0, 0, 0]
        chaddr := List.replicate 16 0
        options := [] } := by
  have hopts : parse_options (hlenZeroFrame.drop 236) = Except.ok [] := by
    have hd : hlenZeroFrame.drop 236 = [99, 130, 83, 99] := by decide
    rw [hd]
    unfold parse_options
    rw [if_neg (by decide)]
    have he : ([99, 130, 83, 99] : List Nat).drop 4 = [] := rfl
    rw [he, parse_options_loop_nil]
    rfl
  unfold DhcpPacket.parse
  rw [if_neg (by decide), hopts]
  rfl

set_option maxRecDepth 40000 in
/-- Concrete evaluation of the parser on the hlen-6 frame. -/
lemma parse_hlenSixFrame :
    DhcpPacket.parse hlenSixFrame = Except.ok hlenSixPacket := by
  have hopts : parse_options (hlenSixFrame.drop 236) = Except.ok [] := by
    have hd : hlenSixFrame.drop 236 = [99, 130, 83, 99] := by decide
    rw [hd]
    unfold parse_options
    rw [if_neg (by decide)]
    have he : ([99, 130, 83, 99] : List Nat).drop 4 = [] := rfl
    rw [he, parse_options_loop_nil]
    rfl
  unfold DhcpPacket.parse
  rw [if_neg (by decide), hopts]
  rfl

/-! ## Claim theorems -/

/-- C10: evaluation of build_to_windows_version at the inputs of its own
unit test test_build_to_version.  The first-arm-wins match sends 22621
into the arm covering 22000 to 22999 and 19045 into the arm covering
19041 to 19045, so the labels asserted by the test for 22621 and 19045
are not produced; the 19041 and 7601 assertions do hold. -/
theorem build_to_windows_version_test_inputs :
    build_to_windows_version 22621 = "Windows 11 21H2" ∧
    build_to_windows_version 19045 = "Windows 10 2004/20H2/21H1" ∧
    build_to_windows_version 19041 = "Windows 10 2004/20H2/21H1" ∧
    build_to_windows_version 7601 = "Windows 7" := by
  refine ⟨by decide, by decide, by decide, by decide⟩

/-- C9: probe_smb turns a connect refusal or connect timeout into an Ok
result with success false and the corresponding os_version label, and
turns every post-connection send or read failure or timeout into a
transport error, never a false-success result. -/
theorem probe_smb_error_handling (send : SendOutcome) (readr : ReadOutcome)
    (e : String) :
    (probe_smb ConnectOutcome.refused send readr =
      Except.ok ⟨"Unknown (SMB port closed)", none, "N/A", false⟩) ∧
    (probe_smb ConnectOutcome.timedOut send readr =
      Except.ok ⟨"Unknown (connection timeout)", none, "N/A", false⟩) ∧
    (probe_smb ConnectOutcome.connected (SendOutcome.sendFailed e) readr =
      Except.error ("Failed to send SMB negotiate: " ++ e)) ∧
    (probe_smb ConnectOutcome.connected SendOutcome.sendTimedOut readr =
      Except.error "SMB negotiate send timeout") ∧
    (probe_smb ConnectOutcome.connected SendOutcome.sent (ReadOutcome.readFailed e) =
      Except.error ("Failed to read SMB response: " ++ e)) ∧
    (probe_smb ConnectOutcome.connected SendOutcome.sent ReadOutcome.readTimedOut =
      Except.error "SMB response read timeout") :=
  ⟨rfl, rfl, rfl, rfl, rfl, rfl⟩

/-- C1: the DHCP baseline.  A MAC override is returned exclusively (the
result does not depend on the fingerprint); otherwise the exact-equality
fingerprint match decides, a hit carrying confidence 0.95 and method
"MAC/Fingerprint lookup" and a miss yielding the all-Unknown result with
confidence 0 and method "None". -/
theorem detect_via_dhcp_baseline (mm : List Char → Option MacOsInfo)
    (mac : List Char) (fingerprint : String) :
    (∀ m, mm mac = some m →
      detect_via_dhcp mm mac fingerprint =
        ⟨m.os_name, m.device_class, m.vendor, 0.95, "MAC/Fingerprint lookup",
          none, none⟩ ∧
      ∀ fp2, detect_via_dhcp mm mac fp2 = detect_via_dhcp mm mac fingerprint) ∧
    (mm mac = none →
      (∀ info, lookup_fingerprint fingerprint = some info →
        (fingerprint, info) ∈ FINGERPRINT_DB ∧
        detect_via_dhcp mm mac fingerprint =
          ⟨info.os_name, info.device_class, info.vendor, 0.95,
            "MAC/Fingerprint lookup", none, none⟩) ∧
      (lookup_fingerprint fingerprint = none →
        detect_via_dhcp mm mac fingerprint =
          ⟨"Unknown", "Unknown", "Unknown", 0, "None", none, none⟩)) := by
  constructor
  · intro m hm
    constructor
    · simp [detect_via_dhcp, lookup_os, hm]
    · intro fp2
      simp [detect_via_dhcp, lookup_os, hm]
  · intro hnone
    constructor
    · intro info hinfo
      constructor
      · unfold lookup_fingerprint at hinfo
        cases hfind : FINGERPRINT_DB.find? (fun e => e.1 == fingerprint) with
        | none => rw [hfind] at hinfo; simp at hinfo
        | some e =>
          rw [hfind] at hinfo
          simp only [Option.map_some', Option.some.injEq] at hinfo
          have hmem := List.mem_of_find?_eq_some hfind
          have hpred := List.find?_some hfind
          simp only [beq_iff_eq] at hpred
          have heq : (fingerprint, info) = e := by
            cases e
            simp_all
          rw [heq]
          exact hmem
      · simp [detect_via_dhcp, lookup_os, hnone, hinfo]
    · intro hmiss
      simp [detect_via_dhcp, lookup_os, hnone, hmiss]

/-- C1 witness: a miss in the MAC overrides and a hit on the macOS
fingerprint produce the exact-match baseline. -/
theorem detect_via_dhcp_baseline_witness :
    detect_via_dhcp (fun _ => none) ['a'] "1,3,6,15,119,252" =
      ⟨"macOS (Recent)", "Desktop/Laptop", "Apple", 0.95,
        "MAC/Fingerprint lookup", none, none⟩ :=
  (((detect_via_dhcp_baseline (fun _ => none) ['a'] "1,3,6,15,119,252").2 rfl).1
    ⟨"macOS (Recent)", "Desktop/Laptop", "Apple"⟩ (by decide)).2

/-- C4: fusion and fallback.  combine_results keeps the probe's
os_version, preserves the baseline's device_class, sets vendor
"Microsoft", confidence 0.95 and method "SMB probe (dialect)", and
copies dialect and build; at the detector level a fresh probe with
success false, and a fresh probe transport error, both leave the
baseline unchanged, while a fresh successful probe yields the fused
result. -/
theorem combine_results_fusion
    (d : DetectionResult) (s : SmbProbeResult) (cfg : HybridConfig)
    (mm : List Char → Option MacOsInfo) (cache : SmbCache) (now : Nat)
    (ping : PingOutcome) (mac : List Char) (ip fingerprint : String)
    (vc : Option String) (e : String) :
    (combine_results d s =
      ⟨s.os_version, d.device_class, "Microsoft", 0.95,
        "SMB probe (" ++ s.smb_dialect ++ ")", some s.smb_dialect,
        s.build_number⟩) ∧
    (cache ip = none → ping ≠ PingOutcome.unreachable →
      (cfg.enable_smb_probing && (ip != "0.0.0.0") && vendorHasMSFT vc) = true →
      ∀ r : SmbProbeResult, r.success = true →
        (detect cfg mm cache now ping (Except.ok r) mac ip fingerprint vc).result =
          combine_results (detect_via_dhcp mm mac fingerprint) r) ∧
    (cache ip = none →
      ∀ r : SmbProbeResult, r.success = false →
        (detect cfg mm cache now ping (Except.ok r) mac ip fingerprint vc).result =
          detect_via_dhcp mm mac fingerprint) ∧
    (cache ip = none →
      (detect cfg mm cache now ping (Except.error e) mac ip fingerprint vc).result =
        detect_via_dhcp mm mac fingerprint) := by
  refine ⟨rfl, ?_, ?_, ?_⟩
  · intro hc hping hgate r hr
    cases ping
    · simp [detect, hgate, probe_smb_cached, hc, probe_fresh, hr]
    · exact absurd rfl hping
    · simp [detect, hgate, probe_smb_cached, hc, probe_fresh, hr]
  · intro hc r hr
    by_cases hgate :
        (cfg.enable_smb_probing && (ip != "0.0.0.0") && vendorHasMSFT vc) = true
    · cases ping <;>
        simp [detect, hgate, probe_smb_cached, hc, probe_fresh, hr]
    · simp only [detect]
      rw [if_neg hgate]
  · intro hc
    by_cases hgate :
        (cfg.enable_smb_probing && (ip != "0.0.0.0") && vendorHasMSFT vc) = true
    · cases ping <;>
        simp [detect, hgate, probe_smb_cached, hc, probe_fresh]
    · simp only [detect]
      rw [if_neg hgate]

/-- C4 witness: a fresh successful SMB 3.1.1 probe against an empty
cache fuses onto the Windows 11 baseline. -/
theorem combine_results_fusion_witness :
    (detect HybridConfig.default (fun _ => none) (fun _ => none) 0
        PingOutcome.reachable
        (Except.ok ⟨"Windows 10/11 (SMB 3.1.1)", some 19041, "SMB 3.1.1", true⟩)
        ['a'] "192.0.2.10" "1,3,6,15,31,33,43,44,46,47,121,249,252,12"
        (some "MSFT 5.0")).result =
      combine_results
        (detect_via_dhcp (fun _ => none) ['a']
          "1,3,6,15,31,33,43,44,46,47,121,249,252,12")
        ⟨"Windows 10/11 (SMB 3.1.1)", some 19041, "SMB 3.1.1", true⟩ :=
  (combine_results_fusion
      (detect_via_dhcp (fun _ => none) ['a']
        "1,3,6,15,31,33,43,44,46,47,121,249,252,12")
      ⟨"Windows 10/11 (SMB 3.1.1)", some 19041, "SMB 3.1.1", true⟩
      HybridConfig.default (fun _ => none) (fun _ => none) 0
      PingOutcome.reachable ['a'] "192.0.2.10"
      "1,3,6,15,31,33,43,44,46,47,121,249,252,12" (some "MSFT 5.0") "").2.1
    rfl (by decide) (by decide) _ rfl

/-- C2: the SMB gating policy of detect.  Unless probing is enabled, the
IP differs from 0.0.0.0 and the vendor class contains MSFT, the call
returns exactly the DHCP baseline with no connection attempt; with the
gate open, an explicit unreachable ping verdict aborts refinement with
the baseline and no dial, while a ping execution error still reaches the
SMB probe stage. -/
theorem detect_gating (cfg : HybridConfig) (mm : List Char → Option MacOsInfo)
    (cache : SmbCache) (now : Nat) (ping : PingOutcome)
    (probeOutcome : Except String SmbProbeResult) (mac : List Char)
    (ip fingerprint : String) (vc : Option String) :
    (¬(cfg.enable_smb_probing = true ∧ ip ≠ "0.0.0.0" ∧ vendorHasMSFT vc = true) →
      detect cfg mm cache now ping probeOutcome mac ip fingerprint vc =
        ⟨detect_via_dhcp mm mac fingerprint, false, false, cache⟩) ∧
    (cfg.enable_smb_probing = true → ip ≠ "0.0.0.0" → vendorHasMSFT vc = true →
      (ping = PingOutcome.unreachable →
        detect cfg mm cache now ping probeOutcome mac ip fingerprint vc =
          ⟨detect_via_dhcp mm mac fingerprint, false, false, cache⟩) ∧
      (ping = PingOutcome.pingError →
        (detect cfg mm cache now ping probeOutcome mac ip fingerprint vc).probeStage =
          true)) := by
  constructor
  · intro h
    have hgate :
        (cfg.enable_smb_probing && (ip != "0.0.0.0") && vendorHasMSFT vc) = false := by
      rw [Bool.eq_false_iff]
      intro hb
      simp only [Bool.and_eq_true, bne_iff_ne, ne_eq] at hb
      exact h ⟨hb.1.1, hb.1.2, hb.2⟩
    simp [detect, hgate]
  · intro h1 h2 h3
    have hgate :
        (cfg.enable_smb_probing && (ip != "0.0.0.0") && vendorHasMSFT vc) = true := by
      simp only [Bool.and_eq_true, bne_iff_ne, ne_eq]
      exact ⟨⟨h1, h2⟩, h3⟩
    constructor
    · intro hping
      subst hping
      simp [detect, hgate]
    · intro hping
      subst hping
      simp only [detect, hgate, if_true]
      cases hres : (probe_smb_cached cfg cache now probeOutcome ip).result with
      | none => simp [hres]
      | some r =>
        by_cases hs : r.success = true
        · simp [hres, hs]
        · simp [hres, Bool.eq_false_iff.mpr hs]

/-- C2 witness: with a vendor class lacking MSFT the detector returns
the bare baseline and never dials. -/
theorem detect_gating_witness :
    detect HybridConfig.default (fun _ => none) (fun _ => none) 0
        PingOutcome.reachable (Except.error "unused") ['a'] "192.0.2.10"
        "99,98,97" (some "android-dhcp-13") =
      ⟨detect_via_dhcp (fun _ => none) ['a'] "99,98,97", false, false,
        fun _ => none⟩ :=
  (detect_gating HybridConfig.default (fun _ => none) (fun _ => none) 0
      PingOutcome.reachable (Except.error "unused") ['a'] "192.0.2.10"
      "99,98,97" (some "android-dhcp-13")).1 (by decide)

/-- C3 counterexample: the cache for 192.0.2.7 holds exactly one entry,
which is within TTL (age 1 second) but has success false, so no usable
successful entry exists and refinement proceeds; yet probe_smb_cached
serves the cached failure and performs no dial, contrary to the claim
that probe_smb is invoked whenever no usable successful entry exists. -/
theorem probe_smb_cached_claim_counterexample :
    ((fun k : String => if k = "192.0.2.7" then
        some (⟨⟨"Unknown (SMB port closed)", none, "N/A", false⟩, 1000⟩ : SmbCacheEntry)
      else none) "192.0.2.7" =
        some ⟨⟨"Unknown (SMB port closed)", none, "N/A", false⟩, 1000⟩) ∧
    1001 - 1000 < HybridConfig.default.smb_cache_ttl_secs ∧
    (⟨"Unknown (SMB port closed)", none, "N/A", false⟩ : SmbProbeResult).success = false ∧
    (probe_smb_cached HybridConfig.default
      (fun k : String => if k = "192.0.2.7" then
        some ⟨⟨"Unknown (SMB port closed)", none, "N/A", false⟩, 1000⟩
      else none)
      1001
      (Except.ok ⟨"Windows 10/11 (SMB 3.1.1)", some 19041, "SMB 3.1.1", true⟩)
      "192.0.2.7").dialed = false :=
  ⟨rfl, by decide, rfl, rfl⟩

/-- C3 amended: an entry is usable iff its age is strictly below the TTL
(age exactly equal to the TTL forces a re-dial); a usable entry is served
without dialing whatever its success flag; when no usable entry exists at
all the probe is invoked and any Ok outcome (in particular a successful
one) is stored under the current timestamp; and at the detector level a
usable successful entry leads to fusion with the cached dialect and
build and zero TCP I/O. -/
theorem probe_smb_cached_spec (cfg : HybridConfig) (cache : SmbCache)
    (now : Nat) (probeOutcome : Except String SmbProbeResult) (ip : String)
    (mm : List Char → Option MacOsInfo) (ping : PingOutcome)
    (mac : List Char) (fingerprint : String) (vc : Option String) :
    (∀ en, cache ip = some en → now - en.timestamp < cfg.smb_cache_ttl_secs →
      probe_smb_cached cfg cache now probeOutcome ip = ⟨some en.result, cache, false⟩) ∧
    (∀ en, cache ip = some en → ¬(now - en.timestamp < cfg.smb_cache_ttl_secs) →
      (probe_smb_cached cfg cache now probeOutcome ip).dialed = true) ∧
    (cache ip = none →
      (probe_smb_cached cfg cache now probeOutcome ip).dialed = true) ∧
    (∀ r, probeOutcome = Except.ok r →
      (cache ip = none ∨
        ∃ en, cache ip = some en ∧ ¬(now - en.timestamp < cfg.smb_cache_ttl_secs)) →
      (probe_smb_cached cfg cache now probeOutcome ip).cache ip = some ⟨r, now⟩) ∧
    (∀ en, cache ip = some en → now - en.timestamp < cfg.smb_cache_ttl_secs →
      en.result.success = true →
      (cfg.enable_smb_probing && (ip != "0.0.0.0") && vendorHasMSFT vc) = true →
      ping ≠ PingOutcome.unreachable →
      detect cfg mm cache now ping probeOutcome mac ip fingerprint vc =
        ⟨combine_results (detect_via_dhcp mm mac fingerprint) en.result,
          true, false, cache⟩) := by
  refine ⟨?_, ?_, ?_, ?_, ?_⟩
  · intro en hen hfresh
    simp [probe_smb_cached, hen, hfresh]
  · intro en hen hstale
    cases probeOutcome <;> simp [probe_smb_cached, hen, hstale, probe_fresh]
  · intro hnone
    cases probeOutcome <;> simp [probe_smb_cached, hnone, probe_fresh]
  · intro r hr hmiss
    subst hr
    rcases hmiss with hnone | ⟨en, hen, hstale⟩
    · simp [probe_smb_cached, hnone, probe_fresh]
    · simp [probe_smb_cached, hen, hstale, probe_fresh]
  · intro en hen hfresh hsucc hgate hping
    have hstep : probe_smb_cached cfg cache now probeOutcome ip =
        ⟨some en.result, cache, false⟩ := by
      simp [probe_smb_cached, hen, hfresh]
    cases ping
    · simp [detect, hgate, hstep, hsucc]
    · exact absurd rfl hping
    · simp [detect, hgate, hstep, hsucc]

/-- C3 witness: a successful entry aged 100 seconds against a 3600
second TTL is served from the cache without dialing. -/
theorem probe_smb_cached_spec_witness :
    probe_smb_cached HybridConfig.default
        (fun k : String => if k = "10.0.0.5" then
          some ⟨⟨"Windows 8.1/10 (SMB 3.0)", some 9600, "SMB 3.0", true⟩, 500⟩
        else none)
        600 (Except.error "unused") "10.0.0.5" =
      ⟨some ⟨"Windows 8.1/10 (SMB 3.0)", some 9600, "SMB 3.0", true⟩,
        (fun k : String => if k = "10.0.0.5" then
          some ⟨⟨"Windows 8.1/10 (SMB 3.0)", some 9600, "SMB 3.0", true⟩, 500⟩
        else none), false⟩ :=
  (probe_smb_cached_spec HybridConfig.default
      (fun k : String => if k = "10.0.0.5" then
        some ⟨⟨"Windows 8.1/10 (SMB 3.0)", some 9600, "SMB 3.0", true⟩, 500⟩
      else none)
      600 (Except.error "unused") "10.0.0.5" (fun _ => none)
      PingOutcome.reachable [] "" none).1
    ⟨⟨"Windows 8.1/10 (SMB 3.0)", some 9600, "SMB 3.0", true⟩, 500⟩
    rfl (by decide)

/-- C5: DhcpPacket::parse fails exactly when the input is shorter than
236 bytes or the four bytes at offsets 236 to 239 are not the magic
cookie 99,130,83,99; in particular a 236-byte input (no room for a
cookie) fails, and nothing else causes failure. -/
theorem parse_malformed_iff (data : List Nat) :
    ((∃ e, DhcpPacket.parse data = Except.error e) ↔
      data.length < 236 ∨ (data.drop 236).take 4 ≠ [99, 130, 83, 99]) ∧
    (data.length = 236 → ∃ e, DhcpPacket.parse data = Except.error e) := by
  have hmain : (∃ e, DhcpPacket.parse data = Except.error e) ↔
      data.length < 236 ∨ (data.drop 236).take 4 ≠ [99, 130, 83, 99] := by
    constructor
    · rintro ⟨e, he⟩
      by_cases h236 : data.length < 236
      · exact Or.inl h236
      · right
        intro hcookie
        have hlen4 : 4 ≤ (data.drop 236).length := take4_eq_len hcookie
        have hopts : parse_options (data.drop 236) =
            Except.ok (parse_options_loop ((data.drop 236).drop 4) []) := by
          unfold parse_options
          rw [if_neg]
          push_neg
          exact ⟨by omega, hcookie⟩
        unfold DhcpPacket.parse at he
        rw [if_neg h236, hopts] at he
        exact absurd he (by simp)
    · intro h
      by_cases h236 : data.length < 236
      · exact ⟨"DHCP packet too short", by simp [DhcpPacket.parse, h236]⟩
      · have hcookie : (data.drop 236).take 4 ≠ [99, 130, 83, 99] := by
          rcases h with h | h
          · exact absurd h h236
          · exact h
        refine ⟨"Invalid DHCP magic cookie", ?_⟩
        have hopts : parse_options (data.drop 236) =
            Except.error "Invalid DHCP magic cookie" := by
          unfold parse_options
          rw [if_pos (Or.inr hcookie)]
        unfold DhcpPacket.parse
        rw [if_neg h236, hopts]
  refine ⟨hmain, ?_⟩
  · intro hlen
    apply hmain.mpr
    right
    have : data.drop 236 = [] := List.drop_eq_nil_of_le (by omega)
    simp [this]

/-- C5 witness: the all-zero 236-byte frame is rejected. -/
theorem parse_malformed_iff_witness :
    ∃ e, DhcpPacket.parse (List.replicate 236 0) = Except.error e :=
  (parse_malformed_iff (List.replicate 236 0)).2 (by rw [List.length_replicate])

/-- C6: the options decoder is total (every byte list yields either a
structured result or the malformed-cookie error), the TLV loop skips
pad bytes, stops at the end marker, stops silently when the length byte
is missing or the declared length overruns the buffer while keeping the
options accumulated so far, and never consumes more bytes than its
input contains. -/
theorem parse_options_safety :
    (∀ data : List Nat, (∃ opts, parse_options data = Except.ok opts) ∨
      parse_options data = Except.error "Invalid DHCP magic cookie") ∧
    (∀ rest acc, parse_options_loop (0 :: rest) acc = parse_options_loop rest acc) ∧
    (∀ rest acc, parse_options_loop (255 :: rest) acc = acc.reverse) ∧
    (∀ code acc, code ≠ 255 → code ≠ 0 →
      parse_options_loop [code] acc = acc.reverse) ∧
    (∀ code len rest acc, code ≠ 255 → code ≠ 0 → List.length rest < len →
      parse_options_loop (code :: len :: rest) acc = acc.reverse) ∧
    (∀ data : List Nat, optionsBytes (parse_options_loop data []) ≤ data.length) := by
  refine ⟨?_, parse_options_loop_pad, parse_options_loop_end,
    parse_options_loop_nolen, parse_options_loop_trunc, ?_⟩
  · intro data
    by_cases h : data.length < 4 ∨ data.take 4 ≠ [99, 130, 83, 99]
    · right
      simp [parse_options, h]
    · left
      refine ⟨parse_options_loop (data.drop 4) [], ?_⟩
      simp [parse_options, h]
  · intro data
    have := parse_options_loop_bytes data.length data [] (le_refl _)
    simpa [optionsBytes] using this

/-- C6 witness: a TLV whose declared length 10 overruns the 1 remaining
byte is dropped silently, returning the (empty) accumulated options. -/
theorem parse_options_safety_witness :
    parse_options_loop [53, 10, 1] [] = List.reverse [] :=
  parse_options_safety.2.2.2.2.1 53 10 [1] [] (by decide) (by decide) (by decide)

/-- C7 counterexample: the processor output for the decoded 240-byte
frame whose hlen byte is zero has a MAC string of one colon-separated
component (the empty component), not zero, so the component count does
not equal hlen there. -/
theorem from_packet_hlen_zero_counterexample :
    ((DhcpPacket.parse hlenZeroFrame).toOption.map (fun p =>
      ((splitChar ':'
          (DhcpRequest.from_packet (fun _ => none) p "t" "203.0.113.9" 68).mac_address).length,
        p.hlen)) = some (1, 0)) ∧ (1 : Nat) ≠ 0 := by
  refine ⟨?_, by decide⟩
  rw [parse_hlenZeroFrame]
  decide

/-- C7 amended: for every request the processor builds from a decoded
packet, the xid is exactly eight lowercase hexadecimal digits, and the
number of colon-separated MAC components equals the packet's hlen
whenever hlen is between 1 and 16 (hlen 0 renders the empty string with
one component, and hlen above 16 renders the empty string as well). -/
theorem from_packet_mac_xid (data : List Nat) (p : DhcpPacket)
    (mm : List Char → Option MacOsInfo) (ts ip : String) (port : Nat)
    (hp : DhcpPacket.parse data = Except.ok p) :
    (1 ≤ p.hlen → p.hlen ≤ 16 →
      (splitChar ':'
        (DhcpRequest.from_packet mm p ts ip port).mac_address).length = p.hlen) ∧
    (DhcpRequest.from_packet mm p ts ip port).xid.length = 8 ∧
    (∀ c ∈ (DhcpRequest.from_packet mm p ts ip port).xid,
      isLowerHexDigit c = true) := by
  obtain ⟨hlen236, hhlen, hchaddr⟩ := parse_ok_elim data p hp
  have hchlen : p.chaddr.length = 16 := by
    rw [hchaddr]
    simp [List.length_take, List.length_drop]
    omega
  have hmac : (DhcpRequest.from_packet mm p ts ip port).mac_address =
      p.get_mac_address := by
    simp [DhcpRequest.from_packet]
  have hxid : (DhcpRequest.from_packet mm p ts ip port).xid = xidHex p.xid := by
    simp [DhcpRequest.from_packet]
  refine ⟨?_, ?_, ?_⟩
  · intro h1 h16
    rw [hmac]
    unfold DhcpPacket.get_mac_address
    rw [if_neg (by omega)]
    have hparts : ((p.chaddr.take p.hlen).map hexByte).length = p.hlen := by
      simp [List.length_map, List.length_take, hchlen]
      omega
    have hne : (p.chaddr.take p.hlen).map hexByte ≠ [] := by
      intro hnil
      rw [hnil] at hparts
      simp at hparts
      omega
    have hsep : ∀ pt ∈ (p.chaddr.take p.hlen).map hexByte, ':' ∉ pt := by
      intro pt hpt
      simp only [List.mem_map] at hpt
      obtain ⟨b, _, hb⟩ := hpt
      rw [← hb]
      intro hc
      simp only [hexByte, List.mem_cons, List.not_mem_nil, or_false] at hc
      rcases hc with hc | hc
      · exact hexChar_ne_colon _ (Nat.mod_lt _ (by norm_num)) hc.symm
      · exact hexChar_ne_colon _ (Nat.mod_lt _ (by norm_num)) hc.symm
    rw [splitChar_joinColon_length _ hne hsep]
    exact hparts
  · rw [hxid]
    simp [xidHex]
  · rw [hxid]
    intro c hc
    simp only [xidHex, List.mem_map, List.mem_range] at hc
    obtain ⟨k, _, hck⟩ := hc
    rw [← hck]
    exact hexChar_isLowerHex _ (Nat.mod_lt _ (by norm_num))

/-- C7 witness: the frame with hlen 6 yields a six-component MAC. -/
theorem from_packet_mac_xid_witness :
    (splitChar ':'
      (DhcpRequest.from_packet (fun _ => none) hlenSixPacket
        "t" "203.0.113.9" 68).mac_address).length = 6 :=
  (from_packet_mac_xid hlenSixFrame hlenSixPacket (fun _ => none)
    "t" "203.0.113.9" 68 parse_hlenSixFrame).1 (by decide) (by decide)

/-- C8 counterexample: a 68-byte response with a valid signature parses
as success with dialect label "SMB 2.x/3.x", which is none of the six
labels the claimed mapping of the two bytes at offset 68 can produce
(there are no bytes at offset 68 to read). -/
theorem parse_smb2_response_68_counterexample :
    parse_smb2_response (List.replicate 4 0 ++ [0xFE, 83, 77, 66] ++ List.replicate 60 0) =
      Except.ok ⟨"Windows (unknown SMB)", none, "SMB 2.x/3.x", true⟩ ∧
    "SMB 2.x/3.x" ∉
      ["SMB 2.0.2", "SMB 2.1", "SMB 3.0", "SMB 3.0.2", "SMB 3.1.1", "SMB (unknown)"] :=
  ⟨by rfl, by decide⟩

/-- C8 amended: parse_smb2_response errors exactly when the buffer has
fewer than 68 bytes or bytes 4 to 7 are not 0xFE,S,M,B; with at least
70 bytes the dialect is read little-endian at offset 68 and mapped
through the dialect table, and the OS label and build estimate follow
the dialect heuristic; with exactly 68 or 69 bytes no dialect bytes are
read and the result is success with dialect "SMB 2.x/3.x", OS label
"Windows (unknown SMB)" and no build. -/
theorem parse_smb2_response_spec (data : List Nat) :
    ((∃ e, parse_smb2_response data = Except.error e) ↔
      data.length < 68 ∨ (data.drop 4).take 4 ≠ [0xFE, 83, 77, 66]) ∧
    (68 ≤ data.length → (data.drop 4).take 4 = [0xFE, 83, 77, 66] →
      ((70 ≤ data.length →
        parse_smb2_response data = Except.ok
          ⟨(os_from_dialect (dialect_label (data.getD 68 0 + 256 * data.getD 69 0))).1,
            (os_from_dialect (dialect_label (data.getD 68 0 + 256 * data.getD 69 0))).2,
            dialect_label (data.getD 68 0 + 256 * data.getD 69 0), true⟩) ∧
      (data.length < 70 →
        parse_smb2_response data = Except.ok
          ⟨"Windows (unknown SMB)", none, "SMB 2.x/3.x", true⟩))) ∧
    (dialect_label 0x0202 = "SMB 2.0.2" ∧ dialect_label 0x0210 = "SMB 2.1" ∧
      dialect_label 0x0300 = "SMB 3.0" ∧ dialect_label 0x0302 = "SMB 3.0.2" ∧
      dialect_label 0x0311 = "SMB 3.1.1") ∧
    (∀ c, c ∉ [0x0202, 0x0210, 0x0300, 0x0302, 0x0311] →
      dialect_label c = "SMB (unknown)") ∧
    (os_from_dialect "SMB 3.1.1" = ("Windows 10/11 (SMB 3.1.1)", some 19041) ∧
      os_from_dialect "SMB 3.0" = ("Windows 8.1/10 (SMB 3.0)", some 9600) ∧
      os_from_dialect "SMB 3.0.2" = ("Windows 8.1/10 (SMB 3.0)", some 9600) ∧
      os_from_dialect "SMB 2.1" = ("Windows 7/Server 2008 R2", some 7601) ∧
      os_from_dialect "SMB 2.0.2" = ("Windows Vista/Server 2008", some 6002) ∧
      os_from_dialect "SMB 2.x/3.x" = ("Windows (unknown SMB)", none)) := by
  refine ⟨?_, ?_, by decide, ?_, by decide⟩
  · constructor
    · rintro ⟨e, he⟩
      by_cases h68 : data.length < 68
      · exact Or.inl h68
      · right
        intro hsig
        unfold parse_smb2_response at he
        rw [if_neg h68, if_neg (by push_neg; exact ⟨by omega, hsig⟩)] at he
        exact absurd he (by simp)
    · intro h
      by_cases h68 : data.length < 68
      · exact ⟨"SMB response too short", by simp [parse_smb2_response, h68]⟩
      · have hsig : (data.drop 4).take 4 ≠ [0xFE, 83, 77, 66] := by
          rcases h with h | h
          · exact absurd h h68
          · exact h
        refine ⟨"Invalid SMB2 signature", ?_⟩
        unfold parse_smb2_response
        rw [if_neg h68, if_pos (Or.inr hsig)]
  · intro h68 hsig
    constructor
    · intro h70
      unfold parse_smb2_response
      rw [if_neg (by omega), if_neg (by push_neg; exact ⟨by omega, hsig⟩)]
      simp [h70]
    · intro h70
      unfold parse_smb2_response
      rw [if_neg (by omega), if_neg (by push_neg; exact ⟨by omega, hsig⟩)]
      simp only [Nat.not_le.mpr h70, if_neg, if_false]
      rfl
  · intro c hc
    simp only [List.mem_cons, List.not_mem_nil, or_false, not_or] at hc
    obtain ⟨h1, h2, h3, h4, h5⟩ := hc
    simp [dialect_label, h1, h2, h3, h4, h5]

/-- C8 witness: a 70-byte response advertising DialectRevision 0x0311
maps to SMB 3.1.1 and the Windows 10/11 label with build 19041. -/
theorem parse_smb2_response_spec_witness :
    parse_smb2_response smbBuf72 =
      Except.ok ⟨"Windows 10/11 (SMB 3.1.1)", some 19041, "SMB 3.1.1", true⟩ := by
  have h := ((parse_smb2_response_spec smbBuf72).2.1 (by decide) (by decide)).1 (by decide)
  rw [h]
  rfl

end DhcpMon
